import Mathlib

/-!
Verification of the svglatex converter (SVG → PDF + LaTeX overlay).

This file shallowly embeds the geometry and text-extraction pipeline of
`svglatex/converter.py` in Lean 4.  Machine floats are modelled by exact
rationals (`ℚ`); Python exceptions are modelled by `Except String`;
Python dicts are modelled by association lists with last-wins lookup.
Definitions follow the source line by line and keep its names.
-/

namespace Svglatex

/-! ### AffineTransform (converter.py, class AffineTransform)

The Python object stores `self.m = (m0, m1, m2, m3)` (column-major pairs
`(a11, a21, a12, a22)`) and `self.t = (t0, t1)`.  The mutating methods
`matrix`, `translate`, `scale`, `rotate_degrees` are embedded as functions
returning the updated transform. -/

structure AffineTransform where
  m0 : ℚ := 1
  m1 : ℚ := 0
  m2 : ℚ := 0
  m3 : ℚ := 1
  t0 : ℚ := 0
  t1 : ℚ := 0
  deriving DecidableEq, Repr

/-- Embeds `AffineTransform()` : identity linear part, zero translation. -/
def AffineTransform.identity : AffineTransform := {}

/-- Embeds `AffineTransform.matrix(a, b, c, d, e=0, f=0)` (converter.py lines 578-589):
post-composes the argument matrix onto the current transform. -/
def AffineTransform.matrix (X : AffineTransform) (a b c d : ℚ) (e : ℚ := 0) (f : ℚ := 0) :
    AffineTransform :=
  { m0 := X.m0 * a + X.m2 * b
    m1 := X.m1 * a + X.m3 * b
    m2 := X.m0 * c + X.m2 * d
    m3 := X.m1 * c + X.m3 * d
    t0 := X.m0 * e + X.m2 * f + X.t0
    t1 := X.m1 * e + X.m3 * f + X.t1 }

/-- Embeds `AffineTransform.translate(tx, ty)`. -/
def AffineTransform.translate (X : AffineTransform) (tx ty : ℚ) : AffineTransform :=
  X.matrix 1 0 0 1 tx ty

/-- Embeds `AffineTransform.scale(sx, sy=None)`; the one-argument form passes `sx` twice. -/
def AffineTransform.scale (X : AffineTransform) (sx sy : ℚ) : AffineTransform :=
  X.matrix sx 0 0 sy

/-- Embeds `AffineTransform.rotate_degrees(angle, cx=0, cy=0)`.  The sine and cosine of
the angle are taken as arguments (`sinv`, `cosv`) because the transcendental
evaluation `math.sin`/`math.cos` has no exact rational counterpart; the
branch structure mirrors the source. -/
def AffineTransform.rotate_degrees (X : AffineTransform) (sinv cosv cx cy : ℚ) :
    AffineTransform :=
  if cx ≠ 0 ∨ cy ≠ 0 then
    (((X.translate cx cy).matrix cosv sinv (-sinv) cosv).translate (-cx) (-cy))
  else
    X.matrix cosv sinv (-sinv) cosv

/-- Embeds `AffineTransform.applyTo(x, y)` (converter.py lines 591-596). -/
def AffineTransform.applyTo (X : AffineTransform) (p : ℚ × ℚ) : ℚ × ℚ :=
  (X.t0 + X.m0 * p.1 + X.m2 * p.2, X.t1 + X.m1 * p.1 + X.m3 * p.2)

/-- Embeds `AffineTransform.__mul__(a, b)` (converter.py lines 603-616):
`a11, a21, a12, a22 = a.m`, `a13, a23 = a.t`, and `cIJ = aI1*b1J + aI2*b2J + aI3*b3J`. -/
def AffineTransform.mul (a b : AffineTransform) : AffineTransform :=
  { m0 := a.m0 * b.m0 + a.m2 * b.m1
    m1 := a.m1 * b.m0 + a.m3 * b.m1
    m2 := a.m0 * b.m2 + a.m2 * b.m3
    m3 := a.m1 * b.m2 + a.m3 * b.m3
    t0 := a.m0 * b.t0 + a.m2 * b.t1 + a.t0
    t1 := a.m1 * b.t0 + a.m3 * b.t1 + a.t1 }

instance : Mul AffineTransform := ⟨AffineTransform.mul⟩

theorem AffineTransform.mul_def (a b : AffineTransform) : a * b = a.mul b := rfl

end Svglatex

namespace Svglatex

/-! ### Bounding boxes and the Reconciler (converter.py lines 433-545)

`BBox` is the namedtuple `BBox(x, y, width, height)`; `BBoxD` is the
per-identifier dict `dict(x=x, y=y, w=w, h=h)` built by `svg_bounding_boxes`.
Python dicts (unique keys) become association lists with `List.lookup`. -/

structure BBox where
  x : ℚ
  y : ℚ
  width : ℚ
  height : ℚ
  deriving DecidableEq, Repr

structure BBoxD where
  x : ℚ
  y : ℚ
  w : ℚ
  h : ℚ
  deriving DecidableEq, Repr

/-- Embeds `corners(d)` (converter.py lines 533-545): returns `x, xmax, y, ymax`. -/
def corners (d : BBoxD) : ℚ × ℚ × ℚ × ℚ :=
  (d.x, d.x + d.w, d.y, d.y + d.h)

/-- The per-text-id points collected by `svg_bounding_box`'s loop: for each
`name` in `text_ids`, `d = svg_bboxes.get(name)`; skip when `name in
ignore_ids or d is None`; otherwise `x, _, y, _ = corners(d)` contributes the
single point `(x, y)`. -/
def reconciler_pts (svg_bboxes : List (String × BBoxD))
    (text_ids ignore_ids : List String) : List (ℚ × ℚ) :=
  text_ids.filterMap fun name =>
    match svg_bboxes.lookup name with
    | none => none
    | some d =>
        if name ∈ ignore_ids then none
        else
          let (x, _, y, _) := corners d
          some (x, y)

/-- Embeds `svg_bounding_box(svg_bboxes, text_ids, ignore_ids, pdf_bbox)`
(converter.py lines 448-479): the canonical frame. -/
def svg_bounding_box (svg_bboxes : List (String × BBoxD))
    (text_ids ignore_ids : List String) (pdf_bbox : BBox) : BBox :=
  let pts := reconciler_pts svg_bboxes text_ids ignore_ids
  let xmin := pdf_bbox.x
  let ymin := pdf_bbox.y
  let xmax := xmin + pdf_bbox.width
  let ymax := ymin + pdf_bbox.height
  let x_min := (pts.map Prod.fst).foldr min (min xmin xmax)
  let x_max := (pts.map Prod.fst).foldr max (max xmin xmax)
  let y_min := (pts.map Prod.snd).foldr min (min ymin ymax)
  let y_max := (pts.map Prod.snd).foldr max (max ymin ymax)
  BBox.mk x_min y_min (x_max - x_min) (y_max - y_min)

/-- Axis-aligned bounding box of the nonempty point list `p0 :: ps`
(used to state the spec's description of the Reconciler). -/
def bbox_of_points (p0 : ℚ × ℚ) (ps : List (ℚ × ℚ)) : BBox :=
  let x_min := (ps.map Prod.fst).foldr min p0.1
  let x_max := (ps.map Prod.fst).foldr max p0.1
  let y_min := (ps.map Prod.snd).foldr min p0.2
  let y_max := (ps.map Prod.snd).foldr max p0.2
  BBox.mk x_min y_min (x_max - x_min) (y_max - y_min)

/-- The Reconciler as the spec's words describe it (claim C2): the AABB of the
pdf box's four corners plus, for every consumed text id not ignored and
present in the mapping, that element's bottom-left and top-right corners. -/
def svg_bounding_box_spec_two_corners (svg_bboxes : List (String × BBoxD))
    (text_ids ignore_ids : List String) (pdf_bbox : BBox) : BBox :=
  let xmin := pdf_bbox.x
  let ymin := pdf_bbox.y
  let xmax := xmin + pdf_bbox.width
  let ymax := ymin + pdf_bbox.height
  let textpts := text_ids.flatMap fun name =>
    match svg_bboxes.lookup name with
    | none => []
    | some d =>
        if name ∈ ignore_ids then []
        else [(d.x, d.y), (d.x + d.w, d.y + d.h)]
  bbox_of_points (xmin, ymin)
    ([(xmax, ymin), (xmin, ymax), (xmax, ymax)] ++ textpts)

/-- The amended description of the Reconciler: as above but each consumed,
non-ignored, mapped element contributes only its minimum corner `(x, y)`. -/
def svg_bounding_box_spec_min_corner (svg_bboxes : List (String × BBoxD))
    (text_ids ignore_ids : List String) (pdf_bbox : BBox) : BBox :=
  let xmin := pdf_bbox.x
  let ymin := pdf_bbox.y
  let xmax := xmin + pdf_bbox.width
  let ymax := ymin + pdf_bbox.height
  let textpts := text_ids.flatMap fun name =>
    match svg_bboxes.lookup name with
    | none => []
    | some d =>
        if name ∈ ignore_ids then []
        else [(d.x, d.y)]
  bbox_of_points (xmin, ymin)
    ([(xmax, ymin), (xmin, ymax), (xmax, ymax)] ++ textpts)

/-! ### Style Resolver (converter.py lines 56-98, 243-311)

Python strings are Lean `String`s; `str.strip()` becomes `stripStr`;
Python dicts become association lists where later entries win
(`dict.update` / `st[k] = v` append, `dict_get` searches from the end). -/

/-- Python whitespace characters (`str.split`-style, ASCII). -/
def wsChar (c : Char) : Bool :=
  c = ' ' || c = '\t' || c = '\n' || c = '\r' || c = '\x0b' || c = '\x0c'

/-- Embeds `str.strip()` on a character list. -/
def stripChars (l : List Char) : List Char :=
  ((l.dropWhile wsChar).reverse.dropWhile wsChar).reverse

/-- Embeds `str.strip()`. -/
def stripStr (s : String) : String := (stripChars s.toList).asString

/-- Embeds `x.partition(':')` projected to components 0 and 2. -/
def partitionColon (x : String) : String × String :=
  match x.splitOn ":" with
  | [] => (x, "")
  | [a] => (a, "")
  | a :: rest => (a, String.intercalate ":" rest)

/-- Last-wins lookup, modelling Python dict overwrite semantics. -/
def dict_get (d : List (String × String)) (k : String) : Option String :=
  d.reverse.lookup k

/-- Embeds `split_svg_style(style)` (converter.py lines 305-311). -/
def split_svg_style (style : String) : List (String × String) :=
  let parts := (style.splitOn ";").map stripStr
  let parts := (parts.filter (fun x => x ≠ "")).map partitionColon
  parts.map fun p => (stripStr p.1, stripStr p.2)

/-- Hexadecimal digit value (`0-9a-fA-F`). -/
def hexVal (c : Char) : Option ℕ :=
  if c.isDigit then some (c.toNat - 48)
  else if 'a' ≤ c && c ≤ 'f' then some (c.toNat - 87)
  else if 'A' ≤ c && c ≤ 'F' then some (c.toNat - 55)
  else none

/-- Accumulate hexadecimal digits; `none` on a non-hex character. -/
def hexNatCore : List Char → ℕ → Option ℕ
  | [], acc => some acc
  | c :: l, acc =>
      match hexVal c with
      | none => none
      | some v => hexNatCore l (16 * acc + v)

/-- Python `int(s, 16)`: optional surrounding whitespace, optional sign,
then one or more hex digits.  (Digit-group underscores need three or more
characters, so they cannot occur in the two-character slices this program
feeds to `int`.) -/
def int_base16 (l : List Char) : Option ℤ :=
  match stripChars l with
  | [] => none
  | '-' :: rest => if rest = [] then none else (hexNatCore rest 0).map (fun n => -(n : ℤ))
  | '+' :: rest => if rest = [] then none else (hexNatCore rest 0).map (fun n => (n : ℤ))
  | l' => (hexNatCore l' 0).map (fun n => (n : ℤ))

/-- Decimal digit accumulation for `int(s)`. -/
def decNatCore : List Char → ℕ → Option ℕ
  | [], acc => some acc
  | c :: l, acc =>
      if c.isDigit then decNatCore l (10 * acc + (c.toNat - 48)) else none

/-- Python `int(s)` (base 10). -/
def int_base10 (s : String) : Option ℤ :=
  match stripChars s.toList with
  | [] => none
  | '-' :: rest => if rest = [] then none else (decNatCore rest 0).map (fun n => -(n : ℤ))
  | '+' :: rest => if rest = [] then none else (decNatCore rest 0).map (fun n => (n : ℤ))
  | l' => (decNatCore l' 0).map (fun n => (n : ℤ))

/-- Embeds `parse_svg_color(col)` (converter.py lines 378-385): `col[0] == '#'` then
`int(col[1:3], 16)`, `int(col[3:5], 16)`, `int(col[5:7], 16)`; any other
first character raises the hash-code error. -/
def parse_svg_color (col : String) : Except String (ℤ × ℤ × ℤ) :=
  match col.toList with
  | [] => .error "IndexError: string index out of range"
  | c :: _ =>
      if c = '#' then
        let l := col.toList
        match int_base16 ((l.drop 1).take 2), int_base16 ((l.drop 3).take 2),
            int_base16 ((l.drop 5).take 2) with
        | some r, some g, some b => .ok (r, g, b)
        | _, _, _ => .error "ValueError: invalid literal for int() with base 16"
      else .error "only hash-code colors are supported!"

/-! ### Labels and the Document Text Extractor (converter.py lines 88-98, 186-241, 628-641) -/

def ALIGN_LEFT : ℕ := 0
def ALIGN_CENTER : ℕ := 1
def ALIGN_RIGHT : ℕ := 2
def WEIGHT_NORMAL : ℤ := 500
def WEIGHT_BOLD : ℤ := 700
def STYLE_NORMAL : ℕ := 0
def STYLE_ITALIC : ℕ := 1
def STYLE_OBLIQUE : ℕ := 2

def FONT_MAP : List (String × String) :=
  [("CMU Serif", "rm"), ("CMU Sans Serif", "sf"),
   ("CMU Typewriter Text", "tt"), ("Calibri", "rm")]

def FONT_SIZE_MAP : List (String × String) :=
  [("9px", "\\scriptsize"), ("10px", "\\footnotesize"), ("11px", "\\small"),
   ("12px", "\\normalsize"), ("13px", "\\large")]

/-- Embeds `TeXLabel.__init__(pos, text)` with its defaults. -/
structure TeXLabel where
  text : String
  color : ℤ × ℤ × ℤ := (0, 0, 0)
  pos : ℚ × ℚ
  angle : ℚ := 0
  align : ℕ := ALIGN_LEFT
  fontsize : Option String := none
  fontfamily : String := "rm"
  fontweight : ℤ := WEIGHT_NORMAL
  fontstyle : ℕ := STYLE_NORMAL
  scale : ℚ := 1
  deriving DecidableEq, Repr

/-- One `svg:tspan` run beneath a text element.  `pos` and `angle` are the
already-mapped anchor and rotation computed by `_get_tspan_pos_angle`
(`xform.applyTo((x, y))` and `-round(xform.get_rotation(), 3)`); `text` is
`tspan.text` (`none` when the element has no text node); `style` is the raw
`style` attribute when present. -/
structure Tspan where
  text : Option String
  pos : ℚ × ℚ
  angle : ℚ
  style : Option String := none
  deriving DecidableEq, Repr

/-- One `svg:text` element: its `id`, optional `style` attribute, and runs. -/
structure TextEl where
  id : String
  style : Option String := none
  tspans : List Tspan
  deriving DecidableEq, Repr

/-- Embeds `_make_tex_label(tspan)` (converter.py lines 219-224). -/
def _make_tex_label (t : Tspan) : TeXLabel :=
  { text := "", pos := t.pos, angle := t.angle }

/-- Embeds `_update_tspan_style(style, tspan)` (converter.py lines 235-240):
`style.copy()` then `update` with the run's own parsed style. -/
def _update_tspan_style (style : List (String × String)) (t : Tspan) :
    List (String × String) :=
  match t.style with
  | none => style
  | some s => style ++ split_svg_style s

/-- Embeds `_set_fill` (converter.py lines 243-246); `parse_svg_color` may raise. -/
def _set_fill (lbl : TeXLabel) (ss : List (String × String)) :
    Except String TeXLabel :=
  match dict_get ss "fill" with
  | none => .ok lbl
  | some v =>
      match parse_svg_color v with
      | .ok c => .ok { lbl with color := c }
      | .error e => .error e

/-- Embeds `_set_font_weight` (converter.py lines 249-258); `int(weight)` may raise. -/
def _set_font_weight (lbl : TeXLabel) (ss : List (String × String)) :
    Except String TeXLabel :=
  match dict_get ss "font-weight" with
  | none => .ok lbl
  | some w =>
      if w = "bold" then .ok { lbl with fontweight := WEIGHT_BOLD }
      else if w = "normal" then .ok { lbl with fontweight := WEIGHT_NORMAL }
      else
        match int_base10 w with
        | some n => .ok { lbl with fontweight := n }
        | none => .error "ValueError: invalid literal for int() with base 10"

/-- Embeds `_set_font_style` (converter.py lines 261-270): unrecognized values are
silently ignored. -/
def _set_font_style (lbl : TeXLabel) (ss : List (String × String)) : TeXLabel :=
  match dict_get ss "font-style" with
  | none => lbl
  | some fs =>
      if fs = "normal" then { lbl with fontstyle := STYLE_NORMAL }
      else if fs = "italic" then { lbl with fontstyle := STYLE_ITALIC }
      else if fs = "oblique" then { lbl with fontstyle := STYLE_OBLIQUE }
      else lbl

/-- Embeds `_set_text_anchor` (converter.py lines 273-282). -/
def _set_text_anchor (lbl : TeXLabel) (ss : List (String × String)) : TeXLabel :=
  match dict_get ss "text-anchor" with
  | none => lbl
  | some anchor =>
      if anchor = "start" then { lbl with align := ALIGN_LEFT }
      else if anchor = "end" then { lbl with align := ALIGN_RIGHT }
      else if anchor = "middle" then { lbl with align := ALIGN_CENTER }
      else lbl

/-- Embeds `_set_font_family` (converter.py lines 285-292): unmapped families only
print a warning. -/
def _set_font_family (lbl : TeXLabel) (ss : List (String × String)) : TeXLabel :=
  match dict_get ss "font-family" with
  | none => lbl
  | some ff =>
      match FONT_MAP.lookup ff with
      | some f => { lbl with fontfamily := f }
      | none => lbl

/-- Embeds `_set_font_size` (converter.py lines 295-302): unmapped sizes only print
a warning. -/
def _set_font_size (lbl : TeXLabel) (ss : List (String × String)) : TeXLabel :=
  match dict_get ss "font-size" with
  | none => lbl
  | some fs =>
      match FONT_SIZE_MAP.lookup fs with
      | some f => { lbl with fontsize := some f }
      | none => lbl

/-- The style-setting sequence of `interpret_svg_text`'s loop body
(converter.py lines 206-211). -/
def apply_span_style (lbl : TeXLabel) (ss : List (String × String)) :
    Except String TeXLabel :=
  match _set_fill lbl ss with
  | .error e => .error e
  | .ok lbl =>
      match _set_font_weight lbl ss with
      | .error e => .error e
      | .ok lbl =>
          .ok (_set_font_size (_set_font_family (_set_text_anchor
            (_set_font_style lbl ss) ss) ss) ss)

/-- The `for tspan in ...` loop of `interpret_svg_text` (converter.py lines
197-211), threading the Python loop state explicitly: the `all_text` list,
the `xys` list, and the label variable `tex_label` (which is unbound, i.e.
`none`, until the first iteration assigns it). -/
def text_loop (style : List (String × String)) :
    List Tspan → List (Option String) → List (ℚ × ℚ) → Option TeXLabel →
    Except String (List (Option String) × List (ℚ × ℚ) × Option TeXLabel)
  | [], all_text, xys, cur => .ok (all_text, xys, cur)
  | t :: rest, all_text, xys, _ =>
      match apply_span_style (_make_tex_label t) (_update_tspan_style style t) with
      | .error e => .error e
      | .ok lbl =>
          text_loop style rest (all_text ++ [t.text]) (xys ++ [(_make_tex_label t).pos]) (some lbl)

/-- Embeds `interpret_svg_text(textEl, labels)` (converter.py lines 186-216).
Returns the consumed id set together with the single appended label; reading
the loop variable `tex_label` (or `xys[0]`) after a zero-iteration loop is
the uncaught Python `UnboundLocalError`. -/
def interpret_svg_text (textEl : TextEl) : Except String (List String × TeXLabel) :=
  let style := match textEl.style with
    | some s => split_svg_style s
    | none => []
  let text_ids := [textEl.id]
  match text_loop style textEl.tspans [] [] none with
  | .error e => .error e
  | .ok (all_text, xys, cur) =>
      match cur with
      | none => .error "UnboundLocalError: local variable tex_label referenced before assignment"
      | some tex_label =>
          let all_text := all_text.filterMap id
          match xys with
          | [] => .error "IndexError: list index out of range"
          | xy0 :: _ =>
              .ok (text_ids, { tex_label with text := String.intercalate " " all_text, pos := xy0 })

/-! ### Transform-attribute parsing (converter.py lines 109-110, 324-375)

`RX_TRANSFORM` is the anchored regex `\s*(\w+)\(([0-9,\s\.-]*)\)\s*` (ASCII
approximation of `\w`/`\s`); both character classes are disjoint from the
delimiters, so greedy maximal munch models the regex exactly. -/

def isWordChar (c : Char) : Bool := c.isAlphanum || c = '_'

def isArgChar (c : Char) : Bool :=
  c.isDigit || c = ',' || wsChar c || c = '.' || c = '-'

/-- Embeds `RX_TRANSFORM.match(attribute)`, returning `(m.group(1), m.group(2))`. -/
def rx_transform_match (s : String) : Option (String × String) :=
  let l := s.toList.dropWhile wsChar
  let name := l.takeWhile isWordChar
  let r1 := l.dropWhile isWordChar
  if name = [] then none
  else
    match r1 with
    | '(' :: r2 =>
        let argstr := r2.takeWhile isArgChar
        let r3 := r2.dropWhile isArgChar
        (match r3 with
         | ')' :: r4 =>
             if r4.dropWhile wsChar = [] then some (name.asString, argstr.asString)
             else none
         | _ => none)
    | _ => none

/-- Embeds `s.split(',')` with Python semantics (`''.split(',') == ['']`). -/
def splitComma : List Char → List (List Char)
  | [] => [[]]
  | c :: rest =>
      if c = ',' then [] :: splitComma rest
      else
        match splitComma rest with
        | h :: t => (c :: h) :: t
        | [] => [[c]]

/-- Decimal value of a digit list, most significant first. -/
def digitsVal : List Char → ℕ → ℕ
  | [], acc => acc
  | c :: l, acc => digitsVal l (10 * acc + (c.toNat - 48))

/-- Python `float(s)` restricted to the regex charset `[0-9,\s\.-]` minus the
comma: optional minus sign, then `digits [ '.' digits? ]` or `'.' digits`. -/
def parse_float (s : List Char) : Option ℚ :=
  let sign : ℚ × List Char :=
    match s with
    | '-' :: rest => (-1, rest)
    | s => (1, s)
  let ip := sign.2.takeWhile Char.isDigit
  let r1 := sign.2.dropWhile Char.isDigit
  match r1 with
  | [] => if ip = [] then none else some (sign.1 * (digitsVal ip 0 : ℚ))
  | '.' :: r2 =>
      let fp := r2.takeWhile Char.isDigit
      let r3 := r2.dropWhile Char.isDigit
      if r3 ≠ [] then none
      else if ip = [] ∧ fp = [] then none
      else some (sign.1 * ((digitsVal ip 0 : ℚ) + (digitsVal fp 0 : ℚ) / (10 : ℚ) ^ fp.length))
  | _ => none

/-- Embeds `[float(x.strip()) for x in m.group(2).split(',')]`: the first invalid
piece raises `ValueError`. -/
def parse_floats : List (List Char) → Except String (List ℚ)
  | [] => .ok []
  | p :: rest =>
      match parse_float (stripChars p) with
      | none => .error ("could not convert string to float: " ++ p.asString)
      | some q =>
          match parse_floats rest with
          | .error e => .error e
          | .ok l => .ok (q :: l)

def parse_float_args (argstr : String) : Except String (List ℚ) :=
  parse_floats (splitComma argstr.toList)

/-- Rational-to-string rendering used where Python would `str()` a float. -/
def ratStr (q : ℚ) : String :=
  if q.den = 1 then toString q.num else toString q.num ++ "/" ++ toString q.den

/-- The failure modes of `parse_svg_transform`: the regex-mismatch assert
(message `bad transform (attr)`), a `float()` `ValueError`, an
argument-count `AssertionError` (whose message is the `args` list), and the
unsupported-function branch (message names the whole attribute). -/
inductive ParseErr
  | badTransform (attr : String)
  | floatValueError (msg : String)
  | assertArgs (args : List ℚ)
  | unsupported (attr : String)
  deriving DecidableEq, Repr

/-- The message text each failure mode surfaces. -/
def ParseErr.message : ParseErr → String
  | .badTransform a => "bad transform (" ++ a ++ ")"
  | .floatValueError m => m
  | .assertArgs args => "[" ++ String.intercalate ", " (args.map ratStr) ++ "]"
  | .unsupported a => "unsupported transform attribute (" ++ a ++ ")"

/-- Embeds `parse_svg_transform(attribute)` (converter.py lines 324-375) together
with its `_make_*_transform` helpers.  Since `rotate` needs `math.sin` and
`math.cos`, their degree-argument values are supplied as functions `sinD`,
`cosD`. -/
def parse_svg_transform (sinD cosD : ℚ → ℚ) (attr : String) :
    Except ParseErr AffineTransform :=
  match rx_transform_match attr with
  | none => .error (.badTransform attr)
  | some (func, argstr) =>
      match parse_float_args argstr with
      | .error m => .error (.floatValueError m)
      | .ok args =>
          if func = "matrix" then
            match args with
            | [a, b, c, d, e, f] => .ok (AffineTransform.identity.matrix a b c d e f)
            | _ => .error (.assertArgs args)
          else if func = "translate" then
            match args with
            | [tx] => .ok (AffineTransform.identity.translate tx 0)
            | [tx, ty] => .ok (AffineTransform.identity.translate tx ty)
            | _ => .error (.assertArgs args)
          else if func = "scale" then
            match args with
            | [sx] => .ok (AffineTransform.identity.scale sx sx)
            | [sx, sy] => .ok (AffineTransform.identity.scale sx sy)
            | _ => .error (.assertArgs args)
          else if func = "rotate" then
            match args with
            | [ang] => .ok (AffineTransform.identity.rotate_degrees (sinD ang) (cosD ang) 0 0)
            | [ang, cx, cy] =>
                .ok (AffineTransform.identity.rotate_degrees (sinD ang) (cosD ang) cx cy)
            | _ => .error (.assertArgs args)
          else .error (.unsupported attr)

/-! ### Markup Emitter (converter.py lines 642-770)

TeX braces inside string literals are written with the escapes `\x7b`/`\x7d`
and the apostrophe with `\x27`; floats are printed through `ratStr`. -/

/-- Python `round(x, 3)` on exact values: round half to even at the third
decimal. -/
def roundHalfEven (x : ℚ) : ℤ :=
  if x - ⌊x⌋ < 1 / 2 then ⌊x⌋
  else if x - ⌊x⌋ > 1 / 2 then ⌊x⌋ + 1
  else if ⌊x⌋ % 2 = 0 then ⌊x⌋ else ⌊x⌋ + 1

def pyround3 (x : ℚ) : ℚ := (roundHalfEven (x * 1000) : ℚ) / 1000

/-- Embeds `_round(*args, unit=1)` (converter.py lines 769-770), at its only call
arity: `tuple(round(x / unit, 3) for x in args)` with two arguments. -/
def _round (x y unit : ℚ) : ℚ × ℚ :=
  (pyround3 (x / unit), pyround3 (y / unit))

/-- Embeds `TeXLabel._color_tex` (converter.py lines 661-668). -/
def TeXLabel._color_tex (lbl : TeXLabel) : String :=
  let r := lbl.color.1
  let g := lbl.color.2.1
  let b := lbl.color.2.2
  if r ≠ 0 ∨ g ≠ 0 ∨ b ≠ 0 then
    "\\color[RGB]\x7b" ++ toString r ++ "," ++ toString g ++ "," ++ toString b ++ "\x7d"
  else ""

/-- Embeds `TeXLabel._font_weight_tex` (converter.py lines 670-674). -/
def TeXLabel._font_weight_tex (lbl : TeXLabel) : String :=
  if lbl.fontweight ≥ WEIGHT_BOLD then "\\bfseries" else ""

/-- Embeds `TeXLabel._font_style_tex` (converter.py lines 676-682). -/
def TeXLabel._font_style_tex (lbl : TeXLabel) : String :=
  if lbl.fontstyle = STYLE_ITALIC then "\\itshape"
  else if lbl.fontstyle = STYLE_OBLIQUE then "\\slshape"
  else ""

/-- Embeds `TeXLabel._font_size_tex` (converter.py lines 684-688). -/
def TeXLabel._font_size_tex (lbl : TeXLabel) : String :=
  match lbl.fontsize with
  | some s => s
  | none => ""

/-- Embeds `TeXLabel._alignment_tex` (converter.py lines 690-698): raises
`ValueError` on an alignment outside the three constants. -/
def TeXLabel._alignment_tex (lbl : TeXLabel) : Except String String :=
  if lbl.align = ALIGN_LEFT then .ok "\\makebox(0,0)[bl]"
  else if lbl.align = ALIGN_CENTER then .ok "\\makebox(0,0)[b]"
  else if lbl.align = ALIGN_RIGHT then .ok "\\makebox(0,0)[br]"
  else .error "ValueError: align"

/-- Embeds `TeXLabel.texcode` (converter.py lines 642-659). -/
def TeXLabel.texcode (lbl : TeXLabel) : Except String String :=
  let color := lbl._color_tex
  let font := "\\" ++ lbl.fontfamily ++ "family" ++ lbl._font_weight_tex ++
    lbl._font_style_tex ++ lbl._font_size_tex
  match lbl._alignment_tex with
  | .error e => .error e
  | .ok align =>
      let texcode := font ++ color ++ align ++ "\x7b\\smash\x7b" ++ lbl.text ++ "\x7d\x7d"
      .ok (if lbl.angle ≠ 0 then
            "\\rotatebox\x7b" ++ ratStr lbl.angle ++ "\x7d\x7b" ++ texcode ++ "\x7d"
          else texcode)

/-- Embeds `PICTURE_PREAMBLE` (converter.py lines 73-87). -/
def PICTURE_PREAMBLE : String :=
  "% Picture generated by svglatex\n" ++
  "\\makeatletter\n" ++
  "\\providecommand\\color[2][]\x7b%\n" ++
  "  \\errmessage\x7b(svglatex) Color is used for the text in Inkscape,\n" ++
  "    but the package \x27color.sty\x27 is not loaded\x7d%\n" ++
  "  \\renewcommand\\color[2][]\x7b\x7d\x7d%\n" ++
  "\\providecommand\\transparent[1]\x7b%\n" ++
  "  \\errmessage\x7b\n" ++
  "    (svglatex) Transparency is used for the text in Inkscape,\n" ++
  "    but the package \x27transparent.sty\x27 is not loaded\x7d%\n" ++
  "  \\renewcommand\\transparent[1]\x7b\x7d\x7d%\n" ++
  "\\setlength\x7b\\unitlength\x7d\x7b\\svgwidth\x7d%\n" ++
  "\\global\\let\\svgwidth\\undefined%\n" ++
  "\\makeatother\n"

/-- Embeds `TeXPicture.__init__` (converter.py lines 707-717). -/
structure TeXPicture where
  svg_bbox : BBox
  pdf_bbox : BBox
  background_graphics : Option String := none
  labels : List TeXLabel := []
  deriving DecidableEq, Repr

/-- One iteration of the label loop in `TeXPicture.dumps` (converter.py
lines 741-750). -/
def put_label (unit xmin ymin h : ℚ) (label : TeXLabel) : Except String String :=
  let x := label.pos.1 - xmin
  let y := (h + ymin) - label.pos.2
  let xy := _round x y unit
  match label.texcode with
  | .error e => .error e
  | .ok text =>
      .ok ("\\put(" ++ ratStr xy.1 ++ ", " ++ ratStr xy.2 ++ ")\x7b" ++ text ++ "\x7d%")

/-- The `for label in self.labels` loop of `TeXPicture.dumps`: the first
raising label aborts, otherwise the `\put` lines accumulate in order. -/
def put_labels (unit xmin ymin h : ℚ) : List TeXLabel → Except String (List String)
  | [] => .ok []
  | l :: rest =>
      match put_label unit xmin ymin h l with
      | .error e => .error e
      | .ok s =>
          match put_labels unit xmin ymin h rest with
          | .error e => .error e
          | .ok cl => .ok (s :: cl)

/-- Embeds `TeXPicture.dumps` (converter.py lines 719-763).  The statement
`assert width == 1, width` becomes the `AssertionError` branch. -/
def TeXPicture.dumps (pic : TeXPicture) : Except String String :=
  let unit := pic.svg_bbox.width
  let xmin := pic.svg_bbox.x
  let ymin := pic.svg_bbox.y
  let w := pic.svg_bbox.width
  let h := pic.svg_bbox.height
  let c0 : List String :=
    match pic.background_graphics with
    | none => []
    | some img =>
        let x := pic.pdf_bbox.x - xmin
        let y := (h + ymin) - (pic.pdf_bbox.height + pic.pdf_bbox.y)
        let xy := _round x y unit
        let scale := pic.pdf_bbox.width / unit
        ["\\put(" ++ ratStr xy.1 ++ ", " ++ ratStr xy.2 ++
         ")\x7b\\includegraphics[width=" ++ ratStr scale ++ "\\unitlength]\x7b" ++
         img ++ "\x7d\x7d%"]
  match put_labels unit xmin ymin h pic.labels with
  | .error e => .error e
  | .ok cl =>
      let c := c0 ++ cl
      let wh := _round w h unit
      if wh.1 = 1 then
        .ok ("\\begingroup%\n" ++ PICTURE_PREAMBLE ++
          "\\begin\x7bpicture\x7d(" ++ ratStr wh.1 ++ ", " ++ ratStr wh.2 ++ ")%\n" ++
          String.intercalate "\n" c ++ "\n" ++
          "\\end\x7bpicture\x7d%\n" ++
          "\\endgroup%\n")
      else .error "AssertionError: width"

/-! ### The whole conversion (converter.py lines 122-160, 433-445)

The renderer collaborator (`inkscape --query-all`, invoked by
`svg_bounding_boxes` on a file path) is a parameter `query`; the pipeline
writes the stripped document to a fresh temporary path `tmpname` and queries
it there, and queries the original document at its own path. -/

def bbox_from_corners (d : BBoxD) : BBox :=
  let (xmin, xmax, ymin, ymax) := corners d
  BBox.mk xmin ymin (xmax - xmin) (ymax - ymin)

/-- Embeds `pdf_bounding_box(pdf_bboxes)` (converter.py lines 433-445): scan the
response for the first key starting with `svg`; with no match Python keeps
the last binding of the loop variable, and an empty response leaves it
unbound. -/
def pdf_bounding_box (pdf_bboxes : List (String × BBoxD)) : Except String BBox :=
  match pdf_bboxes.find? (fun kd => kd.1.startsWith "svg") with
  | some kd => .ok (bbox_from_corners kd.2)
  | none =>
      match pdf_bboxes.getLast? with
      | some kd => .ok (bbox_from_corners kd.2)
      | none => .error "NameError: name d is not defined"

/-- The parsed input document as far as the pipeline reads it: its text
elements in tree order and the ids of `svg:path` elements under `svg:defs`
(the ignored ids). -/
structure SvgDoc where
  textEls : List TextEl
  ignore_ids : List String
  deriving Repr

/-- The extraction loop of `split_text_graphics` (converter.py lines 153-159). -/
def split_text_loop : List TextEl → List String → List TeXLabel →
    Except String (List String × List TeXLabel)
  | [], ids, labels => .ok (ids, labels)
  | u :: rest, ids, labels =>
      match interpret_svg_text u with
      | .error e => .error e
      | .ok (uids, lbl) => split_text_loop rest (ids ++ uids) (labels ++ [lbl])

/-- Embeds `split_text_graphics(svg_fname)` (converter.py lines 140-160): returns
the consumed text ids, the ignored ids, and the labels. -/
def split_text_graphics (doc : SvgDoc) :
    Except String (List String × List String × List TeXLabel) :=
  match split_text_loop doc.textEls [] [] with
  | .error e => .error e
  | .ok (text_ids, labels) => .ok (text_ids, doc.ignore_ids, labels)

/-- Embeds `convert(svg_fname)` (converter.py lines 122-137): extract, render the
stripped document at the temporary path `tmpname` (its box query is
`query tmpname`), query the original at `fname ++ ".svg"`, reconcile, emit.
Returns the `.pdf_tex` contents. -/
def convert (fname : String) (doc : SvgDoc)
    (query : String → List (String × BBoxD)) (tmpname : String) :
    Except String String :=
  let pdfpath := fname ++ ".pdf"
  match split_text_graphics doc with
  | .error e => .error e
  | .ok (text_ids, ignore_ids, labels) =>
      let pdf_bboxes := query tmpname
      match pdf_bounding_box pdf_bboxes with
      | .error e => .error e
      | .ok pdf_bbox =>
          let svg_bboxes := query (fname ++ ".svg")
          let svg_bbox := svg_bounding_box svg_bboxes text_ids ignore_ids pdf_bbox
          TeXPicture.dumps ⟨svg_bbox, pdf_bbox, some pdfpath, labels⟩

/-! Fold lemmas for `min`/`max` over lists of rationals. -/

theorem foldr_min_min (l : List ℚ) (a b : ℚ) :
    l.foldr min (min a b) = min a (l.foldr min b) := by
  induction l with
  | nil => rfl
  | cons c l ih => simp only [List.foldr_cons, ih, min_left_comm]

theorem foldr_max_max (l : List ℚ) (a b : ℚ) :
    l.foldr max (max a b) = max a (l.foldr max b) := by
  induction l with
  | nil => rfl
  | cons c l ih => simp only [List.foldr_cons, ih, max_left_comm]

theorem foldr_min_le_init (l : List ℚ) (a : ℚ) : l.foldr min a ≤ a := by
  induction l with
  | nil => exact le_refl a
  | cons c l ih => exact le_trans (min_le_right _ _) ih

theorem init_le_foldr_max (l : List ℚ) (a : ℚ) : a ≤ l.foldr max a := by
  induction l with
  | nil => exact le_refl a
  | cons c l ih => exact le_trans ih (le_max_right _ _)

theorem foldr_min_le_mem (l : List ℚ) (a x : ℚ) (h : x ∈ l) :
    l.foldr min a ≤ x := by
  induction l with
  | nil => cases h
  | cons c l ih =>
      rcases List.mem_cons.mp h with h1 | h1
      · exact h1 ▸ min_le_left _ _
      · exact le_trans (min_le_right _ _) (ih h1)

theorem mem_le_foldr_max (l : List ℚ) (a x : ℚ) (h : x ∈ l) :
    x ≤ l.foldr max a := by
  induction l with
  | nil => cases h
  | cons c l ih =>
      rcases List.mem_cons.mp h with h1 | h1
      · exact h1 ▸ le_max_left _ _
      · exact le_trans (ih h1) (le_max_right _ _)

end Svglatex

namespace Svglatex

/-- C3: For all affine transforms `outer` and `inner` and every 2D point `p`,
`(outer * inner).applyTo p = outer.applyTo (inner.applyTo p)`; the linear parts
combine by 2×2 matrix multiplication and the translation equals
`outer.linear * inner.translation + outer.translation`; and the composition of
`translate(5,5)` (outer) with `scale(2,2)` (inner) maps `(0,0)` to `(5,5)` and
`(1,0)` to `(7,5)`. -/
theorem compose_applyTo (outer inner : AffineTransform) (p : ℚ × ℚ) :
    (outer * inner).applyTo p = outer.applyTo (inner.applyTo p) ∧
    (outer * inner).m0 = outer.m0 * inner.m0 + outer.m2 * inner.m1 ∧
    (outer * inner).m1 = outer.m1 * inner.m0 + outer.m3 * inner.m1 ∧
    (outer * inner).m2 = outer.m0 * inner.m2 + outer.m2 * inner.m3 ∧
    (outer * inner).m3 = outer.m1 * inner.m2 + outer.m3 * inner.m3 ∧
    (outer * inner).t0 = outer.m0 * inner.t0 + outer.m2 * inner.t1 + outer.t0 ∧
    (outer * inner).t1 = outer.m1 * inner.t0 + outer.m3 * inner.t1 + outer.t1 ∧
    ((AffineTransform.identity.translate 5 5) *
      (AffineTransform.identity.scale 2 2)).applyTo (0, 0) = (5, 5) ∧
    ((AffineTransform.identity.translate 5 5) *
      (AffineTransform.identity.scale 2 2)).applyTo (1, 0) = (7, 5) := by
  refine ⟨?_, rfl, rfl, rfl, rfl, rfl, rfl, by with_unfolding_all decide,
    by with_unfolding_all decide⟩
  simp only [AffineTransform.mul_def, AffineTransform.mul, AffineTransform.applyTo,
    Prod.mk.injEq]
  constructor <;> ring

/-- C4: composing the identity transform with any transform `T`, on either
side, yields `T` itself (identical linear part and translation). -/
theorem identity_mul_identity (T : AffineTransform) :
    AffineTransform.identity * T = T ∧ T * AffineTransform.identity = T := by
  cases T
  constructor <;>
    · simp only [AffineTransform.mul_def, AffineTransform.mul, AffineTransform.identity,
        AffineTransform.mk.injEq]
      refine ⟨?_, ?_, ?_, ?_, ?_, ?_⟩ <;> ring

/-- The min-corner point list of the amended spec description coincides with
the points `svg_bounding_box`'s loop collects. -/
theorem flatMap_min_corner_eq (svg_bboxes : List (String × BBoxD))
    (text_ids ignore_ids : List String) :
    (text_ids.flatMap fun name =>
      match svg_bboxes.lookup name with
      | none => []
      | some d => if name ∈ ignore_ids then [] else [(d.x, d.y)]) =
    reconciler_pts svg_bboxes text_ids ignore_ids := by
  induction text_ids with
  | nil => rfl
  | cons n l ih =>
      simp only [List.flatMap_cons, reconciler_pts, List.filterMap_cons] at ih ⊢
      cases h : svg_bboxes.lookup n with
      | none => simpa [h] using ih
      | some d =>
          by_cases hig : n ∈ ignore_ids
          · simpa [h, hig] using ih
          · simpa [h, hig, corners] using ih

theorem reconciler_min_eq (l : List ℚ) (a b : ℚ) :
    l.foldr min (min a b) = ([b, a, b] ++ l).foldr min a := by
  show l.foldr min (min a b) = min b (min a (min b (l.foldr min a)))
  rw [min_comm a b, foldr_min_min]
  have hF : l.foldr min a ≤ a := foldr_min_le_init l a
  rw [min_eq_right (le_trans (min_le_right b _) hF), ← min_assoc, min_self]

theorem reconciler_min_eq_y (l : List ℚ) (a b : ℚ) :
    l.foldr min (min a b) = ([a, b, b] ++ l).foldr min a := by
  show l.foldr min (min a b) = min a (min b (min b (l.foldr min a)))
  rw [min_comm a b, foldr_min_min]
  have hF : l.foldr min a ≤ a := foldr_min_le_init l a
  rw [← min_assoc b b, min_self]
  rw [min_eq_right (le_trans (min_le_right b _) hF)]

theorem reconciler_max_eq (l : List ℚ) (a b : ℚ) :
    l.foldr max (max a b) = ([b, a, b] ++ l).foldr max a := by
  show l.foldr max (max a b) = max b (max a (max b (l.foldr max a)))
  rw [max_comm a b, foldr_max_max]
  have hF : a ≤ l.foldr max a := init_le_foldr_max l a
  rw [max_eq_right (le_trans hF (le_max_right b _)), ← max_assoc, max_self]

theorem reconciler_max_eq_y (l : List ℚ) (a b : ℚ) :
    l.foldr max (max a b) = ([a, b, b] ++ l).foldr max a := by
  show l.foldr max (max a b) = max a (max b (max b (l.foldr max a)))
  rw [max_comm a b, foldr_max_max]
  have hF : a ≤ l.foldr max a := init_le_foldr_max l a
  rw [← max_assoc b b, max_self]
  rw [max_eq_right (le_trans hF (le_max_right b _))]

/-- C2 counterexample: with pdf box `(0,0,1,1)` and one consumed, non-ignored
text id mapped to the box `(5,5,10,10)`, the code's canonical frame is
`(0,0,5,5)`, not the AABB `(0,0,15,15)` of the point set that also contains
the element's top-right corner `(15,15)` — `svg_bounding_box` folds in only
the minimum corner `(x, y)` of each element box. -/
theorem svg_bounding_box_two_corners_cex :
    svg_bounding_box [("t", ⟨5, 5, 10, 10⟩)] ["t"] [] ⟨0, 0, 1, 1⟩ = ⟨0, 0, 5, 5⟩ ∧
    svg_bounding_box_spec_two_corners [("t", ⟨5, 5, 10, 10⟩)] ["t"] [] ⟨0, 0, 1, 1⟩ =
      ⟨0, 0, 15, 15⟩ ∧
    svg_bounding_box [("t", ⟨5, 5, 10, 10⟩)] ["t"] [] ⟨0, 0, 1, 1⟩ ≠
      svg_bounding_box_spec_two_corners [("t", ⟨5, 5, 10, 10⟩)] ["t"] [] ⟨0, 0, 1, 1⟩ := by
  refine ⟨?_, ?_, ?_⟩ <;> with_unfolding_all decide

/-- C2 (amended): the Reconciler's canonical frame equals the axis-aligned
bounding box of the point set consisting of the pdf box's four corners plus,
for each consumed text identifier that is not ignored and is present in the
mapping, that element's minimum corner `(x, y)` only. -/
theorem svg_bounding_box_amended (svg_bboxes : List (String × BBoxD))
    (text_ids ignore_ids : List String) (pdf_bbox : BBox) :
    svg_bounding_box svg_bboxes text_ids ignore_ids pdf_bbox =
    svg_bounding_box_spec_min_corner svg_bboxes text_ids ignore_ids pdf_bbox := by
  simp only [svg_bounding_box, svg_bounding_box_spec_min_corner, bbox_of_points,
    flatMap_min_corner_eq]
  rw [reconciler_min_eq, reconciler_max_eq, reconciler_min_eq_y, reconciler_max_eq_y]
  rfl

/-- C1 counterexample: the anchor point `(15,15)` lies inside its consumed,
non-ignored element's queried box `(5,5,10,10)` (inclusively), yet falls
outside the canonical frame computed from that box and the pdf box
`(0,0,1,1)`. -/
theorem anchor_outside_frame_cex :
    ((5 : ℚ) ≤ 15 ∧ (15 : ℚ) ≤ 5 + 10 ∧ (5 : ℚ) ≤ 15 ∧ (15 : ℚ) ≤ 5 + 10) ∧
    ¬ ((svg_bounding_box [("t", ⟨5, 5, 10, 10⟩)] ["t"] [] ⟨0, 0, 1, 1⟩).x ≤ 15 ∧
       (15 : ℚ) ≤ (svg_bounding_box [("t", ⟨5, 5, 10, 10⟩)] ["t"] [] ⟨0, 0, 1, 1⟩).x +
         (svg_bounding_box [("t", ⟨5, 5, 10, 10⟩)] ["t"] [] ⟨0, 0, 1, 1⟩).width ∧
       (svg_bounding_box [("t", ⟨5, 5, 10, 10⟩)] ["t"] [] ⟨0, 0, 1, 1⟩).y ≤ 15 ∧
       (15 : ℚ) ≤ (svg_bounding_box [("t", ⟨5, 5, 10, 10⟩)] ["t"] [] ⟨0, 0, 1, 1⟩).y +
         (svg_bounding_box [("t", ⟨5, 5, 10, 10⟩)] ["t"] [] ⟨0, 0, 1, 1⟩).height) := by
  constructor
  · refine ⟨?_, ?_, ?_, ?_⟩ <;> norm_num
  · intro hc
    have h2 := hc.2.1
    revert h2
    with_unfolding_all decide

/-- C1 (amended): the canonical frame contains, inclusively on all four
sides, the minimum corner `(x, y)` of every consumed, non-ignored element box
present in the mapping (the anchor itself can escape the frame, as the
counterexample shows, since only that corner is folded in). -/
theorem svg_bounding_box_contains_min_corners (svg_bboxes : List (String × BBoxD))
    (text_ids ignore_ids : List String) (pdf_bbox : BBox) (name : String) (d : BBoxD)
    (h1 : name ∈ text_ids) (h2 : name ∉ ignore_ids)
    (h3 : svg_bboxes.lookup name = some d) :
    (svg_bounding_box svg_bboxes text_ids ignore_ids pdf_bbox).x ≤ d.x ∧
    d.x ≤ (svg_bounding_box svg_bboxes text_ids ignore_ids pdf_bbox).x +
      (svg_bounding_box svg_bboxes text_ids ignore_ids pdf_bbox).width ∧
    (svg_bounding_box svg_bboxes text_ids ignore_ids pdf_bbox).y ≤ d.y ∧
    d.y ≤ (svg_bounding_box svg_bboxes text_ids ignore_ids pdf_bbox).y +
      (svg_bounding_box svg_bboxes text_ids ignore_ids pdf_bbox).height := by
  have hmem : (d.x, d.y) ∈ reconciler_pts svg_bboxes text_ids ignore_ids := by
    unfold reconciler_pts
    refine List.mem_filterMap.mpr ⟨name, h1, ?_⟩
    rw [h3]
    simp [h2, corners]
  have hx : d.x ∈ (reconciler_pts svg_bboxes text_ids ignore_ids).map Prod.fst :=
    List.mem_map.mpr ⟨(d.x, d.y), hmem, rfl⟩
  have hy : d.y ∈ (reconciler_pts svg_bboxes text_ids ignore_ids).map Prod.snd :=
    List.mem_map.mpr ⟨(d.x, d.y), hmem, rfl⟩
  simp only [svg_bounding_box]
  have hx1 := foldr_min_le_mem _ (min pdf_bbox.x (pdf_bbox.x + pdf_bbox.width)) _ hx
  have hx2 := mem_le_foldr_max _ (max pdf_bbox.x (pdf_bbox.x + pdf_bbox.width)) _ hx
  have hy1 := foldr_min_le_mem _ (min pdf_bbox.y (pdf_bbox.y + pdf_bbox.height)) _ hy
  have hy2 := mem_le_foldr_max _ (max pdf_bbox.y (pdf_bbox.y + pdf_bbox.height)) _ hy
  refine ⟨hx1, ?_, hy1, ?_⟩ <;> linarith

/-- Witness for the amended C1 at a concrete mapping, id set and pdf box. -/
theorem svg_bounding_box_contains_min_corners_witness :
    (svg_bounding_box [("t", ⟨5, 5, 10, 10⟩)] ["t"] [] ⟨0, 0, 1, 1⟩).x ≤ 5 ∧
    (5 : ℚ) ≤ (svg_bounding_box [("t", ⟨5, 5, 10, 10⟩)] ["t"] [] ⟨0, 0, 1, 1⟩).x +
      (svg_bounding_box [("t", ⟨5, 5, 10, 10⟩)] ["t"] [] ⟨0, 0, 1, 1⟩).width ∧
    (svg_bounding_box [("t", ⟨5, 5, 10, 10⟩)] ["t"] [] ⟨0, 0, 1, 1⟩).y ≤ 5 ∧
    (5 : ℚ) ≤ (svg_bounding_box [("t", ⟨5, 5, 10, 10⟩)] ["t"] [] ⟨0, 0, 1, 1⟩).y +
      (svg_bounding_box [("t", ⟨5, 5, 10, 10⟩)] ["t"] [] ⟨0, 0, 1, 1⟩).height :=
  svg_bounding_box_contains_min_corners [("t", ⟨5, 5, 10, 10⟩)] ["t"] [] ⟨0, 0, 1, 1⟩
    "t" ⟨5, 5, 10, 10⟩ (by simp) (by simp) rfl

/-! Projection-preservation lemmas: none of the style setters touches a
label's `pos`, `angle` or `text`. -/

theorem _set_fill_pres (lbl : TeXLabel) (ss : List (String × String)) (out : TeXLabel)
    (h : _set_fill lbl ss = .ok out) :
    out.pos = lbl.pos ∧ out.angle = lbl.angle ∧ out.text = lbl.text := by
  unfold _set_fill at h
  rcases hf : dict_get ss "fill" with _ | v <;> rw [hf] at h <;> dsimp only at h
  · injection h with h
    subst h
    exact ⟨rfl, rfl, rfl⟩
  · rcases hc : parse_svg_color v with e | c <;> rw [hc] at h <;> dsimp only at h
    · exact Except.noConfusion h
    · injection h with h
      subst h
      exact ⟨rfl, rfl, rfl⟩

theorem _set_font_weight_pres (lbl : TeXLabel) (ss : List (String × String)) (out : TeXLabel)
    (h : _set_font_weight lbl ss = .ok out) :
    out.pos = lbl.pos ∧ out.angle = lbl.angle ∧ out.text = lbl.text := by
  unfold _set_font_weight at h
  rcases hf : dict_get ss "font-weight" with _ | w <;> rw [hf] at h <;> dsimp only at h
  · injection h with h
    subst h
    exact ⟨rfl, rfl, rfl⟩
  · split_ifs at h
    · injection h with h
      subst h
      exact ⟨rfl, rfl, rfl⟩
    · injection h with h
      subst h
      exact ⟨rfl, rfl, rfl⟩
    · rcases hi : int_base10 w with _ | n <;> rw [hi] at h <;> dsimp only at h
      · exact Except.noConfusion h
      · injection h with h
        subst h
        exact ⟨rfl, rfl, rfl⟩

theorem _set_font_style_pres (lbl : TeXLabel) (ss : List (String × String)) :
    (_set_font_style lbl ss).pos = lbl.pos ∧ (_set_font_style lbl ss).angle = lbl.angle ∧
    (_set_font_style lbl ss).text = lbl.text := by
  unfold _set_font_style
  rcases dict_get ss "font-style" with _ | fs <;> dsimp only
  · exact ⟨rfl, rfl, rfl⟩
  · split_ifs <;> exact ⟨rfl, rfl, rfl⟩

theorem _set_text_anchor_pres (lbl : TeXLabel) (ss : List (String × String)) :
    (_set_text_anchor lbl ss).pos = lbl.pos ∧ (_set_text_anchor lbl ss).angle = lbl.angle ∧
    (_set_text_anchor lbl ss).text = lbl.text := by
  unfold _set_text_anchor
  rcases dict_get ss "text-anchor" with _ | a <;> dsimp only
  · exact ⟨rfl, rfl, rfl⟩
  · split_ifs <;> exact ⟨rfl, rfl, rfl⟩

theorem _set_font_family_pres (lbl : TeXLabel) (ss : List (String × String)) :
    (_set_font_family lbl ss).pos = lbl.pos ∧ (_set_font_family lbl ss).angle = lbl.angle ∧
    (_set_font_family lbl ss).text = lbl.text := by
  unfold _set_font_family
  rcases dict_get ss "font-family" with _ | ff <;> dsimp only
  · exact ⟨rfl, rfl, rfl⟩
  · rcases FONT_MAP.lookup ff with _ | f <;> exact ⟨rfl, rfl, rfl⟩

theorem _set_font_size_pres (lbl : TeXLabel) (ss : List (String × String)) :
    (_set_font_size lbl ss).pos = lbl.pos ∧ (_set_font_size lbl ss).angle = lbl.angle ∧
    (_set_font_size lbl ss).text = lbl.text := by
  unfold _set_font_size
  rcases dict_get ss "font-size" with _ | fs <;> dsimp only
  · exact ⟨rfl, rfl, rfl⟩
  · rcases FONT_SIZE_MAP.lookup fs with _ | f <;> exact ⟨rfl, rfl, rfl⟩

/-- The whole per-run style pass preserves `pos`, `angle` and `text`. -/
theorem apply_span_style_pres (lbl : TeXLabel) (ss : List (String × String)) (out : TeXLabel)
    (h : apply_span_style lbl ss = .ok out) :
    out.pos = lbl.pos ∧ out.angle = lbl.angle ∧ out.text = lbl.text := by
  unfold apply_span_style at h
  rcases h1 : _set_fill lbl ss with e | l1 <;> rw [h1] at h <;> dsimp only at h
  · exact Except.noConfusion h
  rcases h2 : _set_font_weight l1 ss with e | l2 <;> rw [h2] at h <;> dsimp only at h
  · exact Except.noConfusion h
  injection h with h
  subst h
  obtain ⟨p1, a1, t1⟩ := _set_fill_pres lbl ss l1 h1
  obtain ⟨p2, a2, t2⟩ := _set_font_weight_pres l1 ss l2 h2
  obtain ⟨p3, a3, t3⟩ := _set_font_style_pres l2 ss
  obtain ⟨p4, a4, t4⟩ := _set_text_anchor_pres (_set_font_style l2 ss) ss
  obtain ⟨p5, a5, t5⟩ := _set_font_family_pres (_set_text_anchor (_set_font_style l2 ss) ss) ss
  obtain ⟨p6, a6, t6⟩ := _set_font_size_pres
    (_set_font_family (_set_text_anchor (_set_font_style l2 ss) ss) ss) ss
  refine ⟨?_, ?_, ?_⟩ <;> simp_all

/-- Invariant of the extractor loop: on success the accumulated text list is
the runs' texts in order, the position list is the runs' mapped anchors in
order, and the final `tex_label` is the last run's freshly built label (its
`pos`/`angle` are the last run's, its `text` still empty). -/
theorem text_loop_ok (style : List (String × String)) :
    ∀ (ts : List Tspan) (acc : List (Option String)) (xys : List (ℚ × ℚ))
      (cur : Option TeXLabel)
      (out : List (Option String) × List (ℚ × ℚ) × Option TeXLabel),
      text_loop style ts acc xys cur = .ok out →
      out.1 = acc ++ ts.map Tspan.text ∧
      out.2.1 = xys ++ ts.map Tspan.pos ∧
      (ts = [] → out.2.2 = cur) ∧
      (ts ≠ [] → ∃ l tl, out.2.2 = some l ∧ ts.getLast? = some tl ∧
        l.pos = tl.pos ∧ l.angle = tl.angle ∧ l.text = "") := by
  intro ts
  induction ts with
  | nil =>
      intro acc xys cur out h
      injection h with h
      subst h
      exact ⟨by simp, by simp, fun _ => rfl, fun hne => absurd rfl hne⟩
  | cons t rest ih =>
      intro acc xys cur out h
      unfold text_loop at h
      rcases ha : apply_span_style (_make_tex_label t) (_update_tspan_style style t)
        with e | lbl <;> rw [ha] at h
      · exact Except.noConfusion h
      obtain ⟨e1, e2, _, e4⟩ := ih (acc ++ [t.text]) (xys ++ [(_make_tex_label t).pos]) (some lbl) out h
      obtain ⟨pp, aa, tt⟩ := apply_span_style_pres _ _ _ ha
      refine ⟨by simp [e1], by simp [e2, _make_tex_label], ?_, ?_⟩
      · intro hc
        exact absurd hc (by simp)
      · intro _
        cases rest with
        | nil =>
            obtain ⟨_, _, h3, _⟩ := ih (acc ++ [t.text]) (xys ++ [(_make_tex_label t).pos]) (some lbl) out h
            refine ⟨lbl, t, h3 rfl, rfl, ?_, ?_, ?_⟩ <;>
              simp [pp, aa, tt, _make_tex_label]
        | cons r rs =>
            obtain ⟨l, tl, hl, hlast, hrest⟩ := e4 (by simp)
            exact ⟨l, tl, hl, by rw [← hlast]; rfl, hrest⟩

/-- C5 counterexample: a text element with two runs whose rotations differ
(first run angle 0, second 90) produces a label whose rotation is the *last*
run's angle 90, not the first run's 0 (only `pos` is reset to `xys[0]`). -/
theorem interpret_svg_text_first_angle_cex :
    Except.map (fun out => out.2.angle)
      (interpret_svg_text ⟨"t", none,
        [⟨some "a", (0, 0), 0, none⟩, ⟨some "b", (1, 1), 90, none⟩]⟩) =
      .ok 90 ∧
    ([⟨some "a", (0, 0), 0, none⟩, ⟨some "b", (1, 1), 90, none⟩] : List Tspan).head?.map
      Tspan.angle = some 0 ∧
    (90 : ℚ) ≠ 0 := by
  refine ⟨by with_unfolding_all rfl, rfl, by norm_num⟩

/-- C5 (amended): for every text element with at least one run, on success
the extractor yields exactly one label (with the element's id consumed) whose
text is the concatenation of all runs' non-`None` texts joined by single
spaces and whose position is the *first* run's mapped position — but whose
rotation is the *last* run's angle, not the first's. -/
theorem interpret_svg_text_amended (el : TextEl) (t0 : Tspan) (rest : List Tspan)
    (ids : List String) (lbl : TeXLabel)
    (hts : el.tspans = t0 :: rest)
    (h : interpret_svg_text el = .ok (ids, lbl)) :
    ids = [el.id] ∧
    lbl.text = String.intercalate " " ((t0 :: rest).filterMap Tspan.text) ∧
    lbl.pos = t0.pos ∧
    ∃ tl, (t0 :: rest).getLast? = some tl ∧ lbl.angle = tl.angle := by
  unfold interpret_svg_text at h
  rw [hts] at h
  dsimp only at h
  rcases hl : text_loop
      (match el.style with | some s => split_svg_style s | none => [])
      (t0 :: rest) [] [] none with e | out <;> rw [hl] at h <;> dsimp only at h
  · exact Except.noConfusion h
  obtain ⟨all_text, xys, cur⟩ := out
  obtain ⟨e1, e2, _, e4⟩ := text_loop_ok _ _ _ _ _ _ hl
  obtain ⟨l, tl, hcur, hlast, hpos, hangle, htext⟩ := e4 (by simp)
  dsimp only at e1 e2 hcur
  subst e1 e2 hcur
  dsimp only at h
  rw [List.map_cons, List.nil_append] at h
  injection h with h
  injection h with hids hlbl
  subst hids
  subst hlbl
  refine ⟨rfl, ?_, rfl, tl, hlast, hangle⟩
  show String.intercalate " " (List.filterMap id ((t0 :: rest).map Tspan.text)) = _
  rw [List.filterMap_map]
  rfl

/-- Witness for the amended C5 at a concrete two-run text element. -/
theorem interpret_svg_text_amended_witness :
    (["t"] : List String) = ["t"] ∧
    "a b" = String.intercalate " "
      (([⟨some "a", (0, 0), 0, none⟩, ⟨some "b", (1, 1), 90, none⟩] : List Tspan).filterMap
        Tspan.text) ∧
    ((0 : ℚ), (0 : ℚ)) = (0, 0) ∧
    ∃ tl, ([⟨some "a", (0, 0), 0, none⟩,
        ⟨some "b", (1, 1), 90, none⟩] : List Tspan).getLast? = some tl ∧
      (90 : ℚ) = tl.angle :=
  interpret_svg_text_amended
    ⟨"t", none, [⟨some "a", (0, 0), 0, none⟩, ⟨some "b", (1, 1), 90, none⟩]⟩
    ⟨some "a", (0, 0), 0, none⟩ [⟨some "b", (1, 1), 90, none⟩] ["t"]
    { text := "a b", pos := (0, 0), angle := 90 }
    rfl (by with_unfolding_all rfl)

/-- A list is an infix of itself wrapped between any two lists (stated on
the character lists of strings). -/
theorem toList_infix_wrap (pre s post : String) :
    s.toList <:+: (pre ++ s ++ post).toList :=
  ⟨pre.toList, post.toList, rfl⟩

/-- C7 counterexample: `parse_svg_transform("matrix(1,2)")` fails on the
argument count, but the resulting message is the argument list `[1, 2]`, which
does not reference the attribute text `matrix(1,2)`. -/
theorem parse_svg_transform_argcount_cex :
    parse_svg_transform (fun _ => 0) (fun _ => 0) "matrix(1,2)" =
      .error (.assertArgs [1, 2]) ∧
    ¬ ("matrix(1,2)".toList <:+: (ParseErr.assertArgs [1, 2]).message.toList) := by
  constructor
  · with_unfolding_all rfl
  · with_unfolding_all decide

/-- C7 (amended): parsing succeeds only for a single call of `matrix` (6
args), `translate` (1-2), `scale` (1-2) or `rotate` (1 or 3); an unknown
function name fails with an error whose message contains the full attribute
text; a known name with a wrong argument count fails with an error carrying
the parsed argument list (not the attribute text). -/
theorem parse_svg_transform_forms (sinD cosD : ℚ → ℚ) (attr : String) :
    (∀ t, parse_svg_transform sinD cosD attr = .ok t →
      ∃ func argstr args, rx_transform_match attr = some (func, argstr) ∧
        parse_float_args argstr = .ok args ∧
        ((func = "matrix" ∧ args.length = 6) ∨
         (func = "translate" ∧ (args.length = 1 ∨ args.length = 2)) ∨
         (func = "scale" ∧ (args.length = 1 ∨ args.length = 2)) ∨
         (func = "rotate" ∧ (args.length = 1 ∨ args.length = 3)))) ∧
    (∀ func argstr args, rx_transform_match attr = some (func, argstr) →
      parse_float_args argstr = .ok args →
      func ≠ "matrix" → func ≠ "translate" → func ≠ "scale" → func ≠ "rotate" →
      parse_svg_transform sinD cosD attr = .error (.unsupported attr) ∧
      attr.toList <:+: (ParseErr.unsupported attr).message.toList) ∧
    (∀ func argstr args, rx_transform_match attr = some (func, argstr) →
      parse_float_args argstr = .ok args →
      ((func = "matrix" ∧ args.length ≠ 6) ∨
       (func = "translate" ∧ args.length ≠ 1 ∧ args.length ≠ 2) ∨
       (func = "scale" ∧ args.length ≠ 1 ∧ args.length ≠ 2) ∨
       (func = "rotate" ∧ args.length ≠ 1 ∧ args.length ≠ 3)) →
      parse_svg_transform sinD cosD attr = .error (.assertArgs args)) := by
  refine ⟨?_, ?_, ?_⟩
  · intro t h
    unfold parse_svg_transform at h
    rcases hm : rx_transform_match attr with _ | fa <;> rw [hm] at h <;> dsimp only at h
    · exact Except.noConfusion h
    obtain ⟨func, argstr⟩ := fa
    dsimp only at h
    rcases hp : parse_float_args argstr with m | args <;> rw [hp] at h <;> dsimp only at h
    · exact Except.noConfusion h
    refine ⟨func, argstr, args, rfl, hp, ?_⟩
    repeat' split at h
    all_goals first
      | exact Except.noConfusion h
      | simp_all
  · intro func argstr args hm hp h1 h2 h3 h4
    unfold parse_svg_transform
    rw [hm]
    dsimp only
    rw [hp]
    dsimp only
    rw [if_neg h1, if_neg h2, if_neg h3, if_neg h4]
    exact ⟨rfl, toList_infix_wrap "unsupported transform attribute (" attr ")"⟩
  · intro func argstr args hm hp hcase
    unfold parse_svg_transform
    rw [hm]
    dsimp only
    rw [hp]
    dsimp only
    rcases hcase with ⟨hfn, hlen⟩ | ⟨hfn, hl1, hl2⟩ | ⟨hfn, hl1, hl2⟩ | ⟨hfn, hl1, hl2⟩ <;>
      subst hfn
    · rw [if_pos rfl]
      split
      · simp_all
      · rfl
    · rw [if_neg (by decide), if_pos rfl]
      split
      · simp_all
      · simp_all
      · rfl
    · rw [if_neg (by decide), if_neg (by decide), if_pos rfl]
      split
      · simp_all
      · simp_all
      · rfl
    · rw [if_neg (by decide), if_neg (by decide), if_neg (by decide), if_pos rfl]
      split
      · simp_all
      · simp_all
      · rfl

/-- Witness for the amended C7: the unsupported function `skewX(10)` raises
an error referencing the full attribute string, and the wrong-count call
`translate(1,2,3)` raises the AssertionError carrying the argument list. -/
theorem parse_svg_transform_forms_witness :
    (parse_svg_transform (fun _ => 0) (fun _ => 0) "skewX(10)" =
        .error (.unsupported "skewX(10)") ∧
      "skewX(10)".toList <:+: (ParseErr.unsupported "skewX(10)").message.toList) ∧
    parse_svg_transform (fun _ => 0) (fun _ => 0) "translate(1,2,3)" =
      .error (.assertArgs [1, 2, 3]) :=
  ⟨(parse_svg_transform_forms (fun _ => 0) (fun _ => 0) "skewX(10)").2.1
      "skewX" "10" [10] (by with_unfolding_all rfl) (by with_unfolding_all rfl)
      (by decide) (by decide) (by decide) (by decide),
    (parse_svg_transform_forms (fun _ => 0) (fun _ => 0) "translate(1,2,3)").2.2
      "translate" "1,2,3" [1, 2, 3] (by with_unfolding_all rfl)
      (by with_unfolding_all rfl)
      (Or.inr (Or.inl ⟨rfl, by decide, by decide⟩))⟩

/-! C8 helper lemmas: hexadecimal digits are neither whitespace nor signs. -/

theorem hexVal_not_ws (c : Char) (v : ℕ) (h : hexVal c = some v) :
    wsChar c = false := by
  cases hw : wsChar c
  · rfl
  · exfalso
    unfold wsChar at hw
    simp only [Bool.or_eq_true, decide_eq_true_eq] at hw
    rcases hw with ((((h1 | h1) | h1) | h1) | h1) | h1 <;> subst h1 <;>
      exact Option.noConfusion h

theorem stripChars_pair (c1 c2 : Char) (h1 : wsChar c1 = false) (h2 : wsChar c2 = false) :
    stripChars [c1, c2] = [c1, c2] := by
  unfold stripChars
  simp [List.dropWhile_cons, h1, h2]

/-- Embeds `int(s, 16)` on a two-hex-digit slice. -/
theorem int_base16_pair (c1 c2 : Char) (v1 v2 : ℕ)
    (h1 : hexVal c1 = some v1) (h2 : hexVal c2 = some v2) :
    int_base16 [c1, c2] = some ((16 * v1 + v2 : ℕ) : ℤ) := by
  unfold int_base16
  rw [stripChars_pair c1 c2 (hexVal_not_ws _ _ h1) (hexVal_not_ws _ _ h2)]
  split
  · simp_all
  · rename_i rest heq
    injection heq with hh _
    rw [hh] at h1
    exact Option.noConfusion h1
  · rename_i rest heq
    injection heq with hh _
    rw [hh] at h1
    exact Option.noConfusion h1
  · simp only [hexNatCore, h1, h2]
    simp

/-- C8 counterexample: `parse_svg_color` succeeds on `#ff0000aa`, which is
not of the form `#rrggbb` (9 characters), returning `(255, 0, 0)` — so
"raises iff not a hex triplet" fails. -/
theorem parse_svg_color_extra_chars_cex :
    parse_svg_color "#ff0000aa" = .ok (255, 0, 0) ∧
    "#ff0000aa".length ≠ 7 := by
  constructor
  · with_unfolding_all rfl
  · decide

/-- C8 (amended): color parsing decodes the character pairs at positions
1-2, 3-4 and 5-6 of any string starting with `#` whose three two-character
slices are hexadecimal (characters beyond position 6 are ignored, so longer
strings such as `#rrggbbaa` also succeed); any string not starting with `#`
fails with the hash-code (UnsupportedColorFormat) error. -/
theorem parse_svg_color_amended (c1 c2 c3 c4 c5 c6 : Char) (rest : List Char)
    (v1 v2 v3 v4 v5 v6 : ℕ)
    (h1 : hexVal c1 = some v1) (h2 : hexVal c2 = some v2)
    (h3 : hexVal c3 = some v3) (h4 : hexVal c4 = some v4)
    (h5 : hexVal c5 = some v5) (h6 : hexVal c6 = some v6) :
    parse_svg_color ⟨'#' :: c1 :: c2 :: c3 :: c4 :: c5 :: c6 :: rest⟩ =
      .ok (((16 * v1 + v2 : ℕ) : ℤ), ((16 * v3 + v4 : ℕ) : ℤ), ((16 * v5 + v6 : ℕ) : ℤ)) ∧
    (∀ (col : String) (c : Char) (l : List Char), col.toList = c :: l → c ≠ '#' →
      parse_svg_color col = .error "only hash-code colors are supported!") := by
  constructor
  · unfold parse_svg_color
    rw [show (String.mk ('#' :: c1 :: c2 :: c3 :: c4 :: c5 :: c6 :: rest)).toList =
      '#' :: c1 :: c2 :: c3 :: c4 :: c5 :: c6 :: rest from rfl]
    dsimp only
    rw [if_pos rfl]
    rw [show List.take 2 (List.drop 1 ('#' :: c1 :: c2 :: c3 :: c4 :: c5 :: c6 :: rest)) =
      [c1, c2] from rfl]
    rw [show List.take 2 (List.drop 3 ('#' :: c1 :: c2 :: c3 :: c4 :: c5 :: c6 :: rest)) =
      [c3, c4] from rfl]
    rw [show List.take 2 (List.drop 5 ('#' :: c1 :: c2 :: c3 :: c4 :: c5 :: c6 :: rest)) =
      [c5, c6] from rfl]
    rw [int_base16_pair c1 c2 v1 v2 h1 h2, int_base16_pair c3 c4 v3 v4 h3 h4,
      int_base16_pair c5 c6 v5 v6 h5 h6]
  · intro col c l hc hne
    unfold parse_svg_color
    rw [hc]
    dsimp only
    rw [if_neg hne]

/-- Witness for the amended C8: `#ff0000` decodes to `(255, 0, 0)` and a
non-hash value fails with the hash-code error. -/
theorem parse_svg_color_amended_witness :
    parse_svg_color "#ff0000" = .ok (255, 0, 0) ∧
    parse_svg_color "red" = .error "only hash-code colors are supported!" := by
  have h := parse_svg_color_amended 'f' 'f' '0' '0' '0' '0' [] 15 15 0 0 0 0
    rfl rfl rfl rfl rfl rfl
  exact ⟨h.1, h.2 "red" 'r' ['e', 'd'] rfl (by decide)⟩

/-- A label whose alignment is one of the three legal constants renders
without raising. -/
theorem texcode_ok (lbl : TeXLabel) (h : lbl.align ≤ 2) :
    ∃ s, lbl.texcode = .ok s := by
  have h3 : lbl.align = 0 ∨ lbl.align = 1 ∨ lbl.align = 2 := by omega
  unfold TeXLabel.texcode TeXLabel._alignment_tex
  rcases h3 with h | h | h <;>
    simp [h, ALIGN_LEFT, ALIGN_CENTER, ALIGN_RIGHT]

/-- The label loop of `dumps` succeeds when every alignment is legal. -/
theorem put_labels_ok (unit xmin ymin hq : ℚ) (labels : List TeXLabel)
    (h : ∀ l ∈ labels, l.align ≤ 2) :
    ∃ cl, put_labels unit xmin ymin hq labels = .ok cl := by
  induction labels with
  | nil => exact ⟨[], rfl⟩
  | cons a t ih =>
      obtain ⟨s, hs⟩ := texcode_ok a (h a (by simp))
      obtain ⟨cl, hcl⟩ := ih fun l hl => h l (by simp [hl])
      have hput : ∃ ps, put_label unit xmin ymin hq a = .ok ps := by
        unfold put_label
        rw [hs]
        exact ⟨_, rfl⟩
      obtain ⟨ps, hps⟩ := hput
      refine ⟨ps :: cl, ?_⟩
      unfold put_labels
      rw [hps, hcl]

theorem pyround3_one : pyround3 1 = 1 := by
  norm_num [pyround3, roundHalfEven]

/-- C6: for every picture whose canonical frame has positive width (and whose
labels carry legal alignments), the Emitter's normalized canonical width
`round(w / w, 3)` is exactly `1`, so `dumps` emits output; and whenever the
normalized width differs from `1`, `dumps` fails instead of emitting. -/
theorem dumps_normalized_width (pic : TeXPicture)
    (h1 : 0 < pic.svg_bbox.width)
    (h2 : ∀ l ∈ pic.labels, l.align ≤ 2) :
    pyround3 (pic.svg_bbox.width / pic.svg_bbox.width) = 1 ∧
    (∃ s, pic.dumps = .ok s) ∧
    (∀ pic2 : TeXPicture, pyround3 (pic2.svg_bbox.width / pic2.svg_bbox.width) ≠ 1 →
      ∀ s, pic2.dumps ≠ .ok s) := by
  have hww : pic.svg_bbox.width / pic.svg_bbox.width = 1 :=
    div_self (ne_of_gt h1)
  refine ⟨by rw [hww]; exact pyround3_one, ?_, ?_⟩
  · obtain ⟨cl, hcl⟩ := put_labels_ok pic.svg_bbox.width pic.svg_bbox.x pic.svg_bbox.y
      pic.svg_bbox.height pic.labels h2
    simp only [TeXPicture.dumps]
    rw [hcl]
    simp only [_round, hww, pyround3_one, if_pos rfl]
    exact ⟨_, rfl⟩
  · intro pic2 hne s hok
    simp only [TeXPicture.dumps] at hok
    rcases hp : put_labels pic2.svg_bbox.width pic2.svg_bbox.x pic2.svg_bbox.y
        pic2.svg_bbox.height pic2.labels with e | cl
    · rw [hp] at hok
      exact Except.noConfusion hok
    · rw [hp] at hok
      simp only [_round] at hok
      rw [if_neg hne] at hok
      exact Except.noConfusion hok

/-- Witness for C6 at a concrete picture with frame width 2. -/
theorem dumps_normalized_width_witness :
    pyround3 ((2 : ℚ) / 2) = 1 ∧
    (∃ s, TeXPicture.dumps ⟨⟨0, 0, 2, 2⟩, ⟨0, 0, 1, 1⟩, none, []⟩ = .ok s) ∧
    (∀ pic2 : TeXPicture, pyround3 (pic2.svg_bbox.width / pic2.svg_bbox.width) ≠ 1 →
      ∀ s, pic2.dumps ≠ .ok s) :=
  dumps_normalized_width ⟨⟨0, 0, 2, 2⟩, ⟨0, 0, 1, 1⟩, none, []⟩ (by norm_num) (by simp)

/-- C9: with the renderer's responses held fixed, the emitted markup does not
depend on the temporary path the stripped document is rendered from: two
conversions of the same document with fresh temporary paths produce
byte-identical output. -/
theorem convert_deterministic (fname : String) (doc : SvgDoc)
    (query : String → List (String × BBoxD)) (tmp1 tmp2 : String)
    (hfix : query tmp1 = query tmp2) :
    convert fname doc query tmp1 = convert fname doc query tmp2 := by
  unfold convert
  rw [hfix]

/-- Witness for C9 at a concrete document and renderer response. -/
theorem convert_deterministic_witness :
    convert "fig" ⟨[], []⟩ (fun _ => [("svg1", ⟨0, 0, 2, 2⟩)]) "/tmp/a.svg" =
    convert "fig" ⟨[], []⟩ (fun _ => [("svg1", ⟨0, 0, 2, 2⟩)]) "/tmp/b.svg" :=
  convert_deterministic "fig" ⟨[], []⟩ (fun _ => [("svg1", ⟨0, 0, 2, 2⟩)])
    "/tmp/a.svg" "/tmp/b.svg" rfl

/-- C10: a text element containing zero runs makes the extractor fail with
the uncaught unbound-local error (the loop accumulator `tex_label` is read
after a zero-iteration loop) rather than producing a label or skipping the
element. -/
theorem interpret_svg_text_no_runs (el : TextEl) (h : el.tspans = []) :
    interpret_svg_text el =
      .error "UnboundLocalError: local variable tex_label referenced before assignment" := by
  unfold interpret_svg_text
  rw [h]
  rfl

/-- Witness for C10 at a concrete empty text element. -/
theorem interpret_svg_text_no_runs_witness :
    interpret_svg_text ⟨"text1", none, []⟩ =
      .error "UnboundLocalError: local variable tex_label referenced before assignment" :=
  interpret_svg_text_no_runs ⟨"text1", none, []⟩ rfl

end Svglatex
